import Mathlib

/-!
Shallow embedding of `src/src/ast.rs` of the rcc repository: the AST node
types, the token-to-operator classifiers (`TryFrom<&Token>` impls) and the
precedence table (`BinaryOp::precedence`).  The lexical token types live in
`crate::tokens`, which is outside the provided sources, so the token
enumerations are modelled from the spec (section 6: a token is a keyword, a
symbol, a literal or an identifier) together with the exact symbol and
keyword names the classifiers in `ast.rs` match on.
-/

namespace RCC

/-- Modelled from the spec: the string-interning service (`crate::str_intern`)
is external; handles compare equal iff the interned text is equal, so a plain
string models an `InternedStr` handle. -/
abbrev InternedStr := String

/-- Modelled from the spec: parsed literal values produced by the scanner
(`crate::tokens::Literal` is outside `src/`); an integer payload is all the
claims need. -/
inductive Literal where
  | Int (value : Int)
deriving DecidableEq, Repr

/-- Modelled from the spec: keywords of the scanner (`crate::tokens::Keyword`
is outside `src/`); the variants matched in `ast.rs` plus the control-flow
words of the C subset. -/
inductive Keyword where
  | Int
  | Double
  | Void
  | Char
  | Long
  | Signed
  | Unsigned
  | Static
  | Const
  | If
  | Else
  | While
  | For
  | Break
  | Continue
  | Return
  | Sizeof
  | Struct
deriving DecidableEq, Repr

/-- Modelled from the spec: symbols of the scanner (`crate::tokens::Symbol`
is outside `src/`); every variant matched in `ast.rs` plus the punctuation
symbols of the C subset. -/
inductive Symbol where
  | Plus
  | Minus
  | Star
  | Slash
  | Modulo
  | EqualEqual
  | BangEqual
  | GreaterThan
  | GreaterThanEqual
  | LessThan
  | LessThanEqual
  | Ampersand
  | Pipe
  | Caret
  | LeftShift
  | RightShift
  | Equal
  | PlusEqual
  | MinusEqual
  | StarEqual
  | SlashEqual
  | ModuloEqual
  | AmpersandEqual
  | PipeEqual
  | CaretEqual
  | LeftShiftEqual
  | RightShiftEqual
  | Bang
  | Tilde
  | Increment
  | Decrement
  | LogicalAnd
  | LogicalOr
  | Semicolon
  | Comma
  | LeftParen
  | RightParen
  | LeftCurly
  | RightCurly
  | LeftBracket
  | RightBracket
  | Dot
  | Arrow
  | QuestionMark
  | Colon
deriving DecidableEq, Repr, Fintype

/-- Modelled from the spec: a lexical token is a keyword, a symbol, a literal
or an identifier (spec section 6). -/
inductive Token where
  | Keyword (k : RCC.Keyword)
  | Symbol (s : RCC.Symbol)
  | Literal (l : RCC.Literal)
  | Identifier (name : InternedStr)
deriving DecidableEq, Repr

/-- `enum PostfixOp`, `src/src/ast.rs` lines 177-180. -/
inductive PostfixOp where
  | Increment
  | Decrement
deriving DecidableEq, Repr, Fintype

/-- `impl TryFrom<&Token> for PostfixOp`, `src/src/ast.rs` lines 182-193;
`Result<Self, ()>` becomes `Option`. -/
def PostfixOp.tryFrom : Token → Option PostfixOp
  | .Symbol .Increment => some .Increment
  | .Symbol .Decrement => some .Decrement
  | _ => none

/-- `enum UnaryOp`, `src/src/ast.rs` lines 196-205. -/
inductive UnaryOp where
  | Increment
  | Decrement
  | Plus
  | Negate
  | LogicalNot
  | BitwiseNot
  | Deref
  | AddressOf
deriving DecidableEq, Repr, Fintype

/-- `impl TryFrom<&Token> for UnaryOp`, `src/src/ast.rs` lines 207-225. -/
def UnaryOp.tryFrom : Token → Option UnaryOp
  | .Symbol .Plus => some .Plus
  | .Symbol .Minus => some .Negate
  | .Symbol .Bang => some .LogicalNot
  | .Symbol .Tilde => some .BitwiseNot
  | .Symbol .Increment => some .Increment
  | .Symbol .Decrement => some .Decrement
  | .Symbol .Star => some .Deref
  | .Symbol .Ampersand => some .AddressOf
  | _ => none

/-- `enum AssignOp`, `src/src/ast.rs` lines 316-329. -/
inductive AssignOp where
  | Assign
  | Plus
  | Minus
  | Multiply
  | Divide
  | Modulo
  | BitwiseAnd
  | BitwiseOr
  | BitwiseXor
  | LeftShift
  | RightShift
deriving DecidableEq, Repr, Fintype

/-- `enum BinaryOp`, `src/src/ast.rs` lines 227-253. -/
inductive BinaryOp where
  | Add
  | Subtract
  | Multiply
  | Divide
  | Modulo
  | Equal
  | NotEqual
  | GreaterThan
  | GreaterThanEqual
  | LessThan
  | LessThanEqual
  | LogicalAnd
  | LogicalOr
  | BitwiseAnd
  | BitwiseOr
  | BitwiseXor
  | LeftShift
  | RightShift
  | Assign (op : AssignOp)
deriving DecidableEq, Repr, Fintype

/-- `BinaryOp::precedence`, `src/src/ast.rs` lines 255-272; the `u8` result
becomes `Nat` (all values fit far below 2^8, so no wraparound arises). -/
def BinaryOp.precedence : BinaryOp → Nat
  | .Multiply | .Divide | .Modulo => 11
  | .Add | .Subtract => 10
  | .LeftShift | .RightShift => 9
  | .GreaterThan | .GreaterThanEqual | .LessThan | .LessThanEqual => 8
  | .Equal | .NotEqual => 7
  | .BitwiseAnd => 6
  | .BitwiseXor => 5
  | .BitwiseOr => 4
  | .LogicalAnd => 3
  | .LogicalOr => 2
  | .Assign _ => 1

/-- `impl TryFrom<&Token> for BinaryOp`, `src/src/ast.rs` lines 274-314. -/
def BinaryOp.tryFrom : Token → Option BinaryOp
  | .Symbol .Plus => some .Add
  | .Symbol .Minus => some .Subtract
  | .Symbol .Star => some .Multiply
  | .Symbol .Slash => some .Divide
  | .Symbol .Modulo => some .Modulo
  | .Symbol .EqualEqual => some .Equal
  | .Symbol .BangEqual => some .NotEqual
  | .Symbol .GreaterThan => some .GreaterThan
  | .Symbol .GreaterThanEqual => some .GreaterThanEqual
  | .Symbol .LessThan => some .LessThan
  | .Symbol .LessThanEqual => some .LessThanEqual
  | .Symbol .Ampersand => some .BitwiseAnd
  | .Symbol .Pipe => some .BitwiseOr
  | .Symbol .Caret => some .BitwiseXor
  | .Symbol .LeftShift => some .LeftShift
  | .Symbol .RightShift => some .RightShift
  | .Symbol .Equal => some (.Assign .Assign)
  | .Symbol .PlusEqual => some (.Assign .Plus)
  | .Symbol .MinusEqual => some (.Assign .Minus)
  | .Symbol .StarEqual => some (.Assign .Multiply)
  | .Symbol .SlashEqual => some (.Assign .Divide)
  | .Symbol .ModuloEqual => some (.Assign .Modulo)
  | .Symbol .AmpersandEqual => some (.Assign .BitwiseAnd)
  | .Symbol .PipeEqual => some (.Assign .BitwiseOr)
  | .Symbol .CaretEqual => some (.Assign .BitwiseXor)
  | .Symbol .LeftShiftEqual => some (.Assign .LeftShift)
  | .Symbol .RightShiftEqual => some (.Assign .RightShift)
  | _ => none

/-- `impl TryFrom<&Token> for AssignOp`, `src/src/ast.rs` lines 330-350. -/
def AssignOp.tryFrom : Token → Option AssignOp
  | .Symbol .Equal => some .Assign
  | .Symbol .PlusEqual => some .Plus
  | .Symbol .MinusEqual => some .Minus
  | .Symbol .StarEqual => some .Multiply
  | .Symbol .SlashEqual => some .Divide
  | .Symbol .ModuloEqual => some .Modulo
  | .Symbol .AmpersandEqual => some .BitwiseAnd
  | .Symbol .PipeEqual => some .BitwiseOr
  | .Symbol .CaretEqual => some .BitwiseXor
  | .Symbol .LeftShiftEqual => some .LeftShift
  | .Symbol .RightShiftEqual => some .RightShift
  | _ => none

/-- `enum TypeSpecifier`, `src/src/ast.rs` lines 71-81. -/
inductive TypeSpecifier where
  | Void
  | Char
  | Int
  | Long
  | Double
  | Signed
  | Unsigned
  | Struct (name : InternedStr)
deriving DecidableEq, Repr

/-- `impl TryFrom<&Token> for TypeSpecifier`, `src/src/ast.rs` lines 83-99. -/
def TypeSpecifier.tryFrom : Token → Option TypeSpecifier
  | .Keyword .Int => some .Int
  | .Keyword .Double => some .Double
  | .Keyword .Void => some .Void
  | .Keyword .Char => some .Char
  | .Keyword .Long => some .Long
  | .Keyword .Signed => some .Signed
  | .Keyword .Unsigned => some .Unsigned
  | _ => none

/-- `enum StorageSpecifier`, `src/src/ast.rs` lines 101-104. -/
inductive StorageSpecifier where
  | Static
deriving DecidableEq, Repr

/-- `enum TypeQualifier`, `src/src/ast.rs` lines 118-121. -/
inductive TypeQualifier where
  | Const
deriving DecidableEq, Repr

/-- `enum DeclaratorType`, `src/src/ast.rs` lines 51-62: pointer-to, array-of
with optional size, or no further shape; the source has no function
declarator variant.  The source field names `to` and `of` are reserved words
here, so they appear as `target` and `element`. -/
inductive DeclaratorType where
  | Pointer (target : DeclaratorType)
  | Array (element : DeclaratorType) (size : Option Nat)
  | None
deriving DecidableEq, Repr

/-- `struct DeclarationSpecifier`, `src/src/ast.rs` lines 64-69. -/
structure DeclarationSpecifier where
  specifiers : List StorageSpecifier
  qualifiers : List TypeQualifier
  ty : List TypeSpecifier
deriving DecidableEq, Repr

/-- `struct Declaration`, `src/src/ast.rs` lines 44-49. -/
structure Declaration where
  specifier : DeclarationSpecifier
  declarator : DeclaratorType
  ident : Option InternedStr
deriving DecidableEq, Repr

mutual

/-- `enum Expression`, `src/src/ast.rs` lines 153-168; `Box` children become
plain recursive fields, `Vec` becomes `List`. -/
inductive Expression where
  | Literal (l : RCC.Literal)
  | Variable (name : InternedStr)
  | Sizeof (operand : TypeOrExpression)
  | Parenthesized (e : Expression)
  | PostFix (op : PostfixOp) (e : Expression)
  | Unary (op : UnaryOp) (e : Expression)
  | Binary (op : BinaryOp) (left : Expression) (right : Expression)
  | FunctionCall (name : InternedStr) (args : List Expression)
  | Index (base : Expression) (idx : Expression)
  | Member (base : Expression) (name : InternedStr)
  | PointerMember (base : Expression) (name : InternedStr)
  | Cast (ty : TypeSpecifier) (e : Expression)
deriving Repr

/-- `enum TypeOrExpression`, `src/src/ast.rs` lines 170-174: the sizeof
operand, a tagged union of a type declaration and a boxed expression. -/
inductive TypeOrExpression where
  | Type (d : Declaration)
  | Expr (e : Expression)
deriving Repr

end

/-- `struct VariableDeclaration`, `src/src/ast.rs` lines 38-42. -/
structure VariableDeclaration where
  declaration : Declaration
  initializer : Option Expression
deriving Repr

/-- `enum Statement`, `src/src/ast.rs` lines 135-151; `struct Block`
(line 15, a wrapper around `Vec<Statement>`) is inlined as `List Statement`
in the `Block` variant, as in `FunctionDeclaration` below. -/
inductive Statement where
  | Expression (e : RCC.Expression)
  | Declaration (d : VariableDeclaration)
  | If (cond : RCC.Expression) (taken : Statement) (otherwise : Option Statement)
  | While (cond : RCC.Expression) (body : Statement)
  | For (init : Option VariableDeclaration) (cond : Option RCC.Expression)
      (step : Option RCC.Expression) (body : Statement)
  | Break
  | Continue
  | Return (value : Option RCC.Expression)
  | Block (stmts : List Statement)
deriving Repr

/-- `struct FunctionDeclaration`, `src/src/ast.rs` lines 30-36. -/
structure FunctionDeclaration where
  declaration : Declaration
  parameters : List Declaration
  varargs : Bool
  body : Option (List Statement)
deriving Repr

/-- `struct StructDeclaration`, `src/src/ast.rs` lines 24-28. -/
structure StructDeclaration where
  ident : InternedStr
  members : List Declaration
deriving Repr

/-- `enum InitDeclaration`, `src/src/ast.rs` lines 17-22. -/
inductive InitDeclaration where
  | Declaration (d : VariableDeclaration)
  | Function (f : FunctionDeclaration)
  | Struct (s : StructDeclaration)
deriving Repr

/-- `type ASTRoot`, `src/src/ast.rs` line 12. -/
abbrev ASTRoot := List InitDeclaration

/-- Whether a binary operator tag is an assignment tag. -/
def BinaryOp.isAssign : BinaryOp → Bool
  | .Assign _ => true
  | _ => false

/-- The two associativity directions of spec section 4.2. -/
inductive Associativity where
  | LeftAssoc
  | RightAssoc
deriving DecidableEq, Repr

/-- Modelled from the spec: `src/src/ast.rs` carries only the numeric
precedence; the associativity declaration lives in the external parser
driver, outside `src/`.  Spec section 4.2: all levels are left-associative
except assignment, which is right-associative. -/
def BinaryOp.associativity : BinaryOp → Associativity
  | .Assign _ => .RightAssoc
  | _ => .LeftAssoc

/-- Modelled from the spec: the primary-expression step of the external
parser driver, restricted to the leaf forms (literals and variable
references, spec section 4.4) that the associativity scenarios use. -/
def parsePrimary : List Token → Option (Expression × List Token)
  | .Identifier n :: rest => some (.Variable n, rest)
  | .Literal l :: rest => some (.Literal l, rest)
  | _ => none

/-- Modelled from the spec: the precedence-climbing loop of the external
parser driver (spec glossary and section 4.2), consulting
`BinaryOp.precedence` and `BinaryOp.associativity` as its sole authority:
while the next token classifies as a binary operator of precedence at least
`minPrec`, it consumes the operator, parses the right operand climbing only
into strictly-tighter operators (equally-tight too when right-associative),
and folds a `Binary` node.  `fuel` bounds the recursion. -/
def climb : Nat → Nat → Expression → List Token → Expression × List Token
  | 0, _, lhs, ts => (lhs, ts)
  | fuel + 1, minPrec, lhs, ts =>
    match ts with
    | [] => (lhs, [])
    | t :: rest =>
      match BinaryOp.tryFrom t with
      | Option.none => (lhs, ts)
      | some op =>
        if minPrec ≤ op.precedence then
          match parsePrimary rest with
          | Option.none => (lhs, ts)
          | some (rhs0, rest2) =>
            let nextMin :=
              match op.associativity with
              | .LeftAssoc => op.precedence + 1
              | .RightAssoc => op.precedence
            let step := climb fuel nextMin rhs0 rest2
            climb fuel minPrec (.Binary op lhs step.1) step.2
        else (lhs, ts)

/-- Modelled from the spec: the external driver's expression entry point, a
primary followed by precedence climbing from the loosest level. -/
def parseExpression (ts : List Token) : Option Expression :=
  match parsePrimary ts with
  | Option.none => Option.none
  | some (lhs, rest) => some (climb (rest.length + 1) 0 lhs rest).1

/-- Tag discriminator for the sizeof operand: `true` exactly on the type
form of the tagged union. -/
def TypeOrExpression.isType : TypeOrExpression → Bool
  | .Type _ => true
  | .Expr _ => false

/-- The declarator shape pointer-to-pointer-to-...(n times)...-to-nothing. -/
def ptrNest : Nat → DeclaratorType
  | 0 => .None
  | n + 1 => .Pointer (ptrNest n)

/-- The number of leading `Pointer` constructors of a declarator shape. -/
def ptrDepth : DeclaratorType → Nat
  | .Pointer t => ptrDepth t + 1
  | _ => 0

/-- C1: `BinaryOp.precedence` assigns every operator of one class the same
binding strength, and strictly decreasing strengths along the documented
ordering multiplicative > additive > shift > relational > equality >
bitwise-AND > bitwise-XOR > bitwise-OR > logical-AND > logical-OR >
assignment. -/
theorem precedence_class_ordering :
    (BinaryOp.precedence .Multiply = BinaryOp.precedence .Divide ∧
      BinaryOp.precedence .Divide = BinaryOp.precedence .Modulo) ∧
    BinaryOp.precedence .Add = BinaryOp.precedence .Subtract ∧
    BinaryOp.precedence .LeftShift = BinaryOp.precedence .RightShift ∧
    (BinaryOp.precedence .GreaterThan = BinaryOp.precedence .GreaterThanEqual ∧
      BinaryOp.precedence .GreaterThanEqual = BinaryOp.precedence .LessThan ∧
      BinaryOp.precedence .LessThan = BinaryOp.precedence .LessThanEqual) ∧
    BinaryOp.precedence .Equal = BinaryOp.precedence .NotEqual ∧
    (∀ a b : AssignOp,
      BinaryOp.precedence (.Assign a) = BinaryOp.precedence (.Assign b)) ∧
    BinaryOp.precedence .Add < BinaryOp.precedence .Multiply ∧
    BinaryOp.precedence .LeftShift < BinaryOp.precedence .Add ∧
    BinaryOp.precedence .GreaterThan < BinaryOp.precedence .LeftShift ∧
    BinaryOp.precedence .Equal < BinaryOp.precedence .GreaterThan ∧
    BinaryOp.precedence .BitwiseAnd < BinaryOp.precedence .Equal ∧
    BinaryOp.precedence .BitwiseXor < BinaryOp.precedence .BitwiseAnd ∧
    BinaryOp.precedence .BitwiseOr < BinaryOp.precedence .BitwiseXor ∧
    BinaryOp.precedence .LogicalAnd < BinaryOp.precedence .BitwiseOr ∧
    BinaryOp.precedence .LogicalOr < BinaryOp.precedence .LogicalAnd ∧
    ∀ a : AssignOp, BinaryOp.precedence (.Assign a) < BinaryOp.precedence .LogicalOr := by
  decide

/-- C2: every binary operator is left-associative except the assignment tags,
which are right-associative (the associativity declaration is modelled from
the spec, since only `ast.rs` is in the sources); with the precedence-climbing
loop this groups `a = b = c` as `a = (b = c)` and `a - b - c` as
`(a - b) - c`. -/
theorem associativity_left_except_assign :
    (∀ op : BinaryOp, op.associativity =
      if op.isAssign then Associativity.RightAssoc else Associativity.LeftAssoc) ∧
    parseExpression [Token.Identifier "a", Token.Symbol .Equal, Token.Identifier "b",
        Token.Symbol .Equal, Token.Identifier "c"] =
      some (.Binary (.Assign .Assign) (.Variable "a")
        (.Binary (.Assign .Assign) (.Variable "b") (.Variable "c"))) ∧
    parseExpression [Token.Identifier "a", Token.Symbol .Minus, Token.Identifier "b",
        Token.Symbol .Minus, Token.Identifier "c"] =
      some (.Binary .Subtract
        (.Binary .Subtract (.Variable "a") (.Variable "b")) (.Variable "c")) :=
  ⟨by decide, rfl, rfl⟩

/-- C3 counterexample: over the whole symbol alphabet, exactly eleven tokens
are classified to an assignment tag by `BinaryOp.tryFrom` — not thirteen. -/
theorem assignment_forms_eleven_not_thirteen :
    (Finset.univ.filter fun s : Symbol =>
        Option.any BinaryOp.isAssign (BinaryOp.tryFrom (.Symbol s))).card = 11 ∧
    (11 : Nat) ≠ 13 := by
  decide

/-- C3 (amended: eleven assignment forms): `=` and the ten compound forms
each map to a distinct operator tag, and each compound tag records the
arithmetic or bitwise operation it fuses with the assignment. -/
theorem assignment_forms_distinct :
    BinaryOp.tryFrom (.Symbol .Equal) = some (.Assign .Assign) ∧
    BinaryOp.tryFrom (.Symbol .PlusEqual) = some (.Assign .Plus) ∧
    BinaryOp.tryFrom (.Symbol .MinusEqual) = some (.Assign .Minus) ∧
    BinaryOp.tryFrom (.Symbol .StarEqual) = some (.Assign .Multiply) ∧
    BinaryOp.tryFrom (.Symbol .SlashEqual) = some (.Assign .Divide) ∧
    BinaryOp.tryFrom (.Symbol .ModuloEqual) = some (.Assign .Modulo) ∧
    BinaryOp.tryFrom (.Symbol .AmpersandEqual) = some (.Assign .BitwiseAnd) ∧
    BinaryOp.tryFrom (.Symbol .PipeEqual) = some (.Assign .BitwiseOr) ∧
    BinaryOp.tryFrom (.Symbol .CaretEqual) = some (.Assign .BitwiseXor) ∧
    BinaryOp.tryFrom (.Symbol .LeftShiftEqual) = some (.Assign .LeftShift) ∧
    BinaryOp.tryFrom (.Symbol .RightShiftEqual) = some (.Assign .RightShift) ∧
    (List.map (fun s => BinaryOp.tryFrom (.Symbol s))
        [Symbol.Equal, .PlusEqual, .MinusEqual, .StarEqual, .SlashEqual, .ModuloEqual,
          .AmpersandEqual, .PipeEqual, .CaretEqual,
          .LeftShiftEqual, .RightShiftEqual]).Nodup := by
  decide

/-- C4: the postfix classifier recognizes exactly `++` (Increment) and `--`
(Decrement) and no other token, and those two tokens are never recognized by
the binary/assignment classifier. -/
theorem postfix_family_exactly_inc_dec :
    (∀ t x, PostfixOp.tryFrom t = some x ↔
      (t = .Symbol .Increment ∧ x = .Increment) ∨
      (t = .Symbol .Decrement ∧ x = .Decrement)) ∧
    BinaryOp.tryFrom (.Symbol .Increment) = Option.none ∧
    BinaryOp.tryFrom (.Symbol .Decrement) = Option.none := by
  refine ⟨?_, rfl, rfl⟩
  intro t x
  cases t with
  | Keyword k => simp [PostfixOp.tryFrom]
  | Literal l => simp [PostfixOp.tryFrom]
  | Identifier n => simp [PostfixOp.tryFrom]
  | Symbol s => cases s <;> cases x <;> simp [PostfixOp.tryFrom]

/-- C5: each of the three family classifiers is a total function into an
optional operator tag — on every token it yields either a recognized tag or
the "not this family" result, never a hard error — and a token outside all
three families (here `;`) yields "not this family" in all of them. -/
theorem classifiers_total_three_state :
    (∀ t, PostfixOp.tryFrom t = Option.none ∨ ∃ op, PostfixOp.tryFrom t = some op) ∧
    (∀ t, UnaryOp.tryFrom t = Option.none ∨ ∃ op, UnaryOp.tryFrom t = some op) ∧
    (∀ t, BinaryOp.tryFrom t = Option.none ∨ ∃ op, BinaryOp.tryFrom t = some op) ∧
    PostfixOp.tryFrom (.Symbol .Semicolon) = Option.none ∧
    UnaryOp.tryFrom (.Symbol .Semicolon) = Option.none ∧
    BinaryOp.tryFrom (.Symbol .Semicolon) = Option.none := by
  refine ⟨fun t => ?_, fun t => ?_, fun t => ?_, rfl, rfl, rfl⟩ <;>
    exact Option.eq_none_or_eq_some _

/-- C6: the unary classifier recognizes exactly the eight tokens `+`, `-`,
`!`, `~`, `++`, `--`, `*`, `&` with the stated tags and rejects every other
token; `*` and `&` are also recognized by the binary classifier (as Multiply
and BitwiseAnd), so the resolver itself does not disambiguate them. -/
theorem unary_family_exactly_eight :
    (∀ t x, UnaryOp.tryFrom t = some x ↔
      (t = .Symbol .Plus ∧ x = .Plus) ∨
      (t = .Symbol .Minus ∧ x = .Negate) ∨
      (t = .Symbol .Bang ∧ x = .LogicalNot) ∨
      (t = .Symbol .Tilde ∧ x = .BitwiseNot) ∨
      (t = .Symbol .Increment ∧ x = .Increment) ∨
      (t = .Symbol .Decrement ∧ x = .Decrement) ∨
      (t = .Symbol .Star ∧ x = .Deref) ∨
      (t = .Symbol .Ampersand ∧ x = .AddressOf)) ∧
    BinaryOp.tryFrom (.Symbol .Star) = some .Multiply ∧
    BinaryOp.tryFrom (.Symbol .Ampersand) = some .BitwiseAnd := by
  refine ⟨?_, rfl, rfl⟩
  intro t x
  cases t with
  | Keyword k => simp [UnaryOp.tryFrom]
  | Literal l => simp [UnaryOp.tryFrom]
  | Identifier n => simp [UnaryOp.tryFrom]
  | Symbol s => cases s <;> cases x <;> simp [UnaryOp.tryFrom]

/-- C7: the Statement enumeration has exactly the nine listed variants and no
assignment variant — assignments live at expression level as `Binary` nodes
tagged `Assign` — and every assignment tag has binding strength 1, the
loosest level of the table. -/
theorem assignment_is_expression_level :
    (∀ s : Statement,
      (∃ e, s = .Expression e) ∨ (∃ d, s = .Declaration d) ∨
      (∃ c t o, s = .If c t o) ∨ (∃ c b, s = .While c b) ∨
      (∃ i c st b, s = .For i c st b) ∨ s = .Break ∨ s = .Continue ∨
      (∃ v, s = .Return v) ∨ (∃ l, s = .Block l)) ∧
    (∃ s : Statement,
      s = .Expression (.Binary (.Assign .Plus) (.Variable "x") (.Literal (.Int 2)))) ∧
    (∀ a : AssignOp, BinaryOp.precedence (.Assign a) = 1) ∧
    (∀ a : AssignOp, ∀ op : BinaryOp,
      BinaryOp.precedence (.Assign a) ≤ BinaryOp.precedence op) := by
  refine ⟨?_, ⟨_, rfl⟩, by decide, by decide⟩
  intro s
  cases s <;> simp

/-- C8: every declarator shape is exactly pointer-to, array-of-with-optional-
size or the terminal shape (so no function-declarator shape exists); distinct
nestings are distinguishable at every level (the constructors are injective
and pairwise distinct, pointer-to-array-of-4 differs from array-of-pointer);
pointer nesting reaches every depth. -/
theorem declarator_shapes_exhaustive :
    (∀ d : DeclaratorType,
      (∃ t, d = .Pointer t) ∨ (∃ e s, d = .Array e s) ∨ d = .None) ∧
    (∀ t e s, ((DeclaratorType.Pointer t) == (DeclaratorType.Array e s)) = false) ∧
    (∀ t, ((DeclaratorType.Pointer t) == DeclaratorType.None) = false) ∧
    (∀ e s, ((DeclaratorType.Array e s) == DeclaratorType.None) = false) ∧
    (∀ t1 t2, DeclaratorType.Pointer t1 = DeclaratorType.Pointer t2 ↔ t1 = t2) ∧
    (∀ e1 s1 e2 s2,
      DeclaratorType.Array e1 s1 = DeclaratorType.Array e2 s2 ↔ e1 = e2 ∧ s1 = s2) ∧
    ((DeclaratorType.Pointer (.Array .None (some 4)) ==
      DeclaratorType.Array (.Pointer .None) (some 4)) = false) ∧
    (∀ n : Nat, ptrDepth (ptrNest n) = n) := by
  refine ⟨?_, ?_, ?_, ?_, ?_, ?_, by decide, ?_⟩
  · intro d; cases d <;> simp
  · intro t e s; simp [beq_eq_false_iff_ne]
  · intro t; simp [beq_eq_false_iff_ne]
  · intro e s; simp [beq_eq_false_iff_ne]
  · intro t1 t2; simp
  · intro e1 s1 e2 s2; simp
  · intro n
    induction n with
    | zero => rfl
    | succ n ih => simp [ptrNest, ptrDepth, ih]

/-- C9: the sizeof operand is a tagged union whose every value is either the
type form or the boxed-expression form (never neither, never both — the tag
discriminates them); both `sizeof(int)` and `sizeof(x)` are constructible and
distinguishable by case analysis on the tag. -/
theorem sizeof_operand_tagged_union :
    (∀ t : TypeOrExpression, (∃ d, t = .Type d) ∨ (∃ e, t = .Expr e)) ∧
    (∀ d, (TypeOrExpression.Type d).isType = true) ∧
    (∀ e, (TypeOrExpression.Expr e).isType = false) ∧
    (∃ ex : Expression, ex = .Sizeof (.Type
      { specifier := { specifiers := [], qualifiers := [], ty := [.Int] },
        declarator := .None, ident := Option.none })) ∧
    (∃ ex : Expression, ex = .Sizeof (.Expr (.Variable "x"))) ∧
    (TypeOrExpression.isType (.Type
      { specifier := { specifiers := [], qualifiers := [], ty := [.Int] },
        declarator := .None, ident := Option.none }) = true) ∧
    (TypeOrExpression.isType (.Expr (.Variable "x")) = false) := by
  refine ⟨?_, fun d => rfl, fun e => rfl, ⟨_, rfl⟩, ⟨_, rfl⟩, rfl, rfl⟩
  intro t
  rcases t with d | e
  · exact Or.inl ⟨d, rfl⟩
  · exact Or.inr ⟨e, rfl⟩

/-- C10: the standalone assignment classifier and the assignment arm of the
binary classifier agree extensionally — the binary classifier yields
`Assign a` exactly when the standalone classifier yields `a`, and the binary
classifier's non-assignment results are exactly the tokens it recognizes that
the standalone classifier rejects. -/
theorem assign_classifiers_agree :
    (∀ t a, BinaryOp.tryFrom t = some (.Assign a) ↔ AssignOp.tryFrom t = some a) ∧
    (∀ t, (AssignOp.tryFrom t = Option.none ∧ ∃ op, BinaryOp.tryFrom t = some op) ↔
      ∃ op, BinaryOp.tryFrom t = some op ∧ op.isAssign = false) := by
  constructor
  · intro t a
    cases t with
    | Symbol s => cases s <;> simp [BinaryOp.tryFrom, AssignOp.tryFrom]
    | Keyword k => simp [BinaryOp.tryFrom, AssignOp.tryFrom]
    | Literal l => simp [BinaryOp.tryFrom, AssignOp.tryFrom]
    | Identifier n => simp [BinaryOp.tryFrom, AssignOp.tryFrom]
  · intro t
    cases t with
    | Symbol s =>
      cases s <;> simp [BinaryOp.tryFrom, AssignOp.tryFrom, BinaryOp.isAssign]
    | Keyword k => simp [BinaryOp.tryFrom, AssignOp.tryFrom]
    | Literal l => simp [BinaryOp.tryFrom, AssignOp.tryFrom]
    | Identifier n => simp [BinaryOp.tryFrom, AssignOp.tryFrom]

end RCC
